import Mathlib

/-!
Verification of the movie-analyst backend (session/task orchestration layer,
content tool client, and LLM gateway adapter) against its natural-language
specification.

The Python sources are shallowly embedded as executable Lean definitions:

* `src/backend/src/core/db.py`            — message store schema and SQLite access
* `src/backend/src/services/agent.py`     — task orchestrator and memory hydrator
* `src/backend/src/api/routes.py`         — SSE streaming transport
* `src/backend/src/services/tool.py`      — TMDB content tool client with tenacity retry
* `src/backend/src/services/concentrate_llm.py` — LLM gateway adapter

Effectful Python code is embedded by explicit state passing: the SQLite tables
become Lean lists threaded through the functions, the outcome of an external
HTTP exchange or of the third-party agent run becomes an explicit parameter,
and Python exceptions become `Except` values.  asyncio primitives used by the
code (`Task.cancel`, `Task.done`, `asyncio.shield`) are modelled by a small
task-phase state machine following their documented semantics.
-/

namespace MovieAnalyst

/-! ## Python value model

A minimal model of Python/JSON values as handled by `json.loads`, `dict.get`
and the formatting helpers of `tool.py` and `concentrate_llm.py`. -/

inductive Json where
  | null : Json
  | bool (b : Bool) : Json
  | num (n : Int) : Json
  | str (s : String) : Json
  | arr (xs : List Json) : Json
  | obj (fields : List (String × Json)) : Json
deriving Repr

/-- `d.get(key)`: first-wins lookup in a dict (keys are unique in Python dicts),
returning `none` for an absent key. -/
def jsonLookup : List (String × Json) → String → Option Json
  | [], _ => none
  | (k, v) :: rest, key => if k = key then some v else jsonLookup rest key

/-- `d.get(key)` on a dict value; `none` when the value is not a dict. -/
def Json.get (j : Json) (key : String) : Option Json :=
  match j with
  | .obj fields => jsonLookup fields key
  | _ => none

/-- `d.get(key, [])` where the code then iterates the result: a present list is
used, anything else collapses to `[]`. -/
def Json.getArr (j : Json) (key : String) : List Json :=
  match j.get key with
  | some (.arr xs) => xs
  | _ => []

mutual

/-- Python's `str()` applied to a decoded JSON value (used only as the last
resort of `_extract_text`); a repr-style rendering. -/
def pyStr : Json → String
  | .null => "None"
  | .bool true => "True"
  | .bool false => "False"
  | .num n => toString n
  | .str s => "\x27" ++ s ++ "\x27"
  | .arr xs => "[" ++ pyStrList xs ++ "]"
  | .obj fields => "\x7b" ++ pyStrFields fields ++ "\x7d"

def pyStrList : List Json → String
  | [] => ""
  | [x] => pyStr x
  | x :: rest => pyStr x ++ ", " ++ pyStrList rest

def pyStrFields : List (String × Json) → String
  | [] => ""
  | [(k, v)] => "\x27" ++ k ++ "\x27: " ++ pyStr v
  | (k, v) :: rest => "\x27" ++ k ++ "\x27: " ++ pyStr v ++ ", " ++ pyStrFields rest

end

/-! ## Python exceptions

The exception classes raised and caught by the embedded code.  `tool.py`
defines `ToolError` with subclasses `APIError` and `NotFoundError`; httpx
contributes `HTTPStatusError` and `RequestError`, both subclasses of
`httpx.HTTPError`; sqlalchemy contributes `IntegrityError`; asyncio
contributes `CancelledError`; tenacity raises `RetryError` on exhaustion.
Exception message strings are elided. -/

inductive PyError where
  | httpStatusError (code : Nat)
  | httpRequestError
  | notFoundError
  | apiError
  | integrityError
  | cancelledError
  | retryError
  | exception
deriving Repr, DecidableEq

/-- `isinstance(e, httpx.HTTPError)`: true exactly for `httpx.HTTPStatusError`
and `httpx.RequestError` (the two httpx exception branches); the `ToolError`
subclasses raised by `tool.py` are plain `Exception`s, not httpx errors. -/
def isHttpxHTTPError : PyError → Bool
  | .httpStatusError _ => true
  | .httpRequestError => true
  | _ => false

/-! ## Message store (`src/backend/src/core/db.py`)

The `chat_messages` table is modelled as a list of rows in insertion (rowid)
order; the `chat_sessions` table, of which only the primary-key `id` column
matters here, as a list of session ids in insertion order. -/

/-- One row of the `chat_messages` table. -/
structure ChatMessageRow where
  id : String
  session_id : String
  role : String
  content : String
  created_at : Nat
deriving Repr, DecidableEq

/-- The `chat_messages` table, rows in insertion (rowid) order. -/
abbrev MessageStore := List ChatMessageRow

/-- The `created_at` column default of `ChatMessage`:
`Column(DateTime, default=datetime.datetime.now(datetime.timezone.utc))`.
The call `datetime.datetime.now(...)` is evaluated once, when `db.py` is
imported, so the column default is that single constant timestamp — it is not
re-evaluated per insert.  `importTime` is the clock value at module import. -/
def chatMessageCreatedAtDefault (importTime : Nat) : Nat := importTime

/-- A `{role, content}` dict as passed around by `agent.py`. -/
structure PyMsg where
  role : String
  content : String
deriving Repr, DecidableEq

/-- `_save_messages(session_id, messages)` (`agent.py` lines 100-117): append
one `ChatMessage` row per dict and commit once.  `newIds` are the fresh
`uuid.uuid4()` strings, one per message; each row's `created_at` is filled by
the column default. -/
def save_messages (importTime : Nat) (newIds : List String) (session_id : String)
    (messages : List PyMsg) (store : MessageStore) : MessageStore :=
  store ++ List.zipWith
    (fun i (m : PyMsg) =>
      { id := i, session_id := session_id, role := m.role, content := m.content,
        created_at := chatMessageCreatedAtDefault importTime })
    newIds messages

/-- `ORDER BY created_at ASC` over a result set.  SQLite returns rows with
equal keys in rowid (insertion) order, which `List.mergeSort` models as a
stable sort. -/
def orderByCreatedAtAsc (rows : List ChatMessageRow) : List ChatMessageRow :=
  rows.mergeSort (fun a b => a.created_at ≤ b.created_at)

/-- `_load_history(session_id)` (`agent.py` lines 80-97): all messages of the
session ordered by creation time, projected to `{role, content}` dicts. -/
def load_history (store : MessageStore) (session_id : String) : List PyMsg :=
  (orderByCreatedAtAsc (store.filter (fun r => r.session_id == session_id))).map
    (fun r => { role := r.role, content := r.content })

/-- `db.add(ChatSession(id=session_id, ...)); db.commit()`: inserting a row
whose primary key already exists violates the uniqueness constraint and the
commit raises `IntegrityError`. -/
def insert_session_row (sessions : List String) (session_id : String) :
    Except PyError (List String) :=
  if sessions.contains session_id then .error .integrityError
  else .ok (sessions ++ [session_id])

/-- `_ensure_session_exists(session_id)` (`agent.py` lines 63-77) with the
read/write race made explicit: the existence check runs against `snapshot`
(the table as this caller's query observed it) while the insert runs against
`sessions` (the table at commit time, possibly already extended by a
concurrent caller).  There is no exception handler around the commit, so an
`IntegrityError` from a lost race propagates. -/
def ensure_session_exists_race (snapshot sessions : List String) (session_id : String) :
    Except PyError (List String) :=
  if snapshot.contains session_id then .ok sessions
  else insert_session_row sessions session_id

/-- `_ensure_session_exists(session_id)` for a single (unraced) caller: the
snapshot and the commit-time table coincide. -/
def ensure_session_exists (sessions : List String) (session_id : String) :
    Except PyError (List String) :=
  ensure_session_exists_race sessions sessions session_id

/-! ## Memory hydrator and task orchestrator (`src/backend/src/services/agent.py`) -/

/-- The llama_index `Memory` as used by `agent.py`: `Memory.from_defaults`
makes it empty and `memory.put` appends one message. -/
structure Memory where
  session_id : String
  token_limit : Nat
  messages : List PyMsg
deriving Repr, DecidableEq

/-- `settings.AGENT_MEMORY_TOKEN_LIMIT` default (`config.py`). -/
def AGENT_MEMORY_TOKEN_LIMIT : Nat := 4000

/-- `_build_memory(session_id)` (`agent.py` lines 124-146): ensure the session
row exists, load the history, then put every historical message into a fresh
`Memory`.  Returns the possibly-extended session table together with the
hydrated memory; an `IntegrityError` from the ensure step propagates. -/
def build_memory (store : MessageStore) (sessions : List String) (session_id : String) :
    Except PyError (List String × Memory) :=
  match ensure_session_exists sessions session_id with
  | .error e => .error e
  | .ok sessions1 =>
      let history := load_history store session_id
      .ok (sessions1,
        { session_id := session_id, token_limit := AGENT_MEMORY_TOKEN_LIMIT,
          messages := history })

/-- The observable effects of `submit_agent_task`, in program order. -/
inductive Effect where
  | ensureSession (session_id : String)
  | loadHistory (session_id : String)
  | saveMessages (session_id : String) (messages : List PyMsg)
  | createAgent
  | launchTask (session_id : String)
deriving Repr, DecidableEq

/-- The effect trace of `submit_agent_task(session_id, message)` (`agent.py`
lines 238-277), read off its body in order: `_build_memory` (which ensures the
session and loads history), the immediate save of the user message, agent
construction, and `asyncio.create_task`. -/
def submit_agent_task_effects (session_id message : String) : List Effect :=
  [ .ensureSession session_id,
    .loadHistory session_id,
    .saveMessages session_id [{ role := "user", content := message }],
    .createAgent,
    .launchTask session_id ]

/-- `submit_agent_task(session_id, message, model)` (`agent.py` lines 238-277),
state-level: hydrate memory, persist the user message, then return — the
detached task is launched only after the save has committed.  `userMsgId` is
the `uuid.uuid4()` of the new user row.  Returns the updated session table,
the updated message store (as it stands at the moment the task is launched),
and the memory handed to the task. -/
def submit_agent_task (importTime : Nat) (userMsgId : String)
    (sessions : List String) (store : MessageStore) (session_id message : String) :
    Except PyError (List String × MessageStore × Memory) :=
  match build_memory store sessions session_id with
  | .error e => .error e
  | .ok (sessions1, memory) =>
      let store1 := save_messages importTime [userMsgId] session_id
        [{ role := "user", content := message }] store
      .ok (sessions1, store1, memory)

/-- Outcome of the third-party agent run awaited inside `_run_agent_task`
(`await handler`): it returns a final response, is cancelled at a suspension
point, or raises some other exception. -/
inductive AgentOutcome where
  | success (reply : String)
  | cancelled
  | failure
deriving Repr, DecidableEq

/-- `_run_agent_task(session_id, agent, message, memory)` (`agent.py` lines
196-235): on success the stripped response text is persisted as one assistant
row and returned; `asyncio.CancelledError` and any other exception are logged
and re-raised without touching the store.  `replyId` is the `uuid.uuid4()` of
the would-be assistant row. -/
def run_agent_task (importTime : Nat) (replyId : String) (session_id : String)
    (outcome : AgentOutcome) (store : MessageStore) :
    MessageStore × Except PyError String :=
  match outcome with
  | .success reply =>
      let result := reply.trim
      (save_messages importTime [replyId] session_id
        [{ role := "assistant", content := result }] store,
       .ok result)
  | .cancelled => (store, .error .cancelledError)
  | .failure => (store, .error .exception)

/-! ## asyncio task model (`agent.py` task registry, `routes.py` streaming)

An `asyncio.Task` is modelled by its phase.  Per the asyncio documentation,
`Task.cancel()` on a task that is not done only *requests* cancellation (the
`CancelledError` is delivered at the task's next suspension point); the task
becomes done only once its coroutine finishes.  `Task.done()` is true exactly
for the three terminal phases. -/

inductive TaskPhase where
  | running
  | cancelRequested
  | doneSuccess (result : String)
  | doneCancelled
  | doneFailed
deriving Repr, DecidableEq

/-- `task.done()`. -/
def TaskPhase.done : TaskPhase → Bool
  | .running => false
  | .cancelRequested => false
  | _ => true

/-- `task.cancel()`: requests cancellation of a task that is not done; a no-op
on a finished task. -/
def TaskPhase.cancel (t : TaskPhase) : TaskPhase :=
  if t.done then t else .cancelRequested

/-- The event loop runs a cancel-requested task to completion: `_run_agent_task`
re-raises `asyncio.CancelledError` (lines 227-229), so the task finishes in the
cancelled state.  Other phases are unaffected by this step. -/
def TaskPhase.settleCancellation : TaskPhase → TaskPhase
  | .cancelRequested => .doneCancelled
  | t => t

/-- The module-level registry `_background_tasks: dict[str, list[asyncio.Task]]`. -/
abbrev BackgroundTasks := List (String × List TaskPhase)

/-- `_background_tasks.get(session_id, [])`. -/
def tasksOf (bt : BackgroundTasks) (session_id : String) : List TaskPhase :=
  (bt.lookup session_id).getD []

/-- `get_active_tasks(session_id)` (`agent.py` lines 284-286):
`[t for t in _background_tasks.get(session_id, []) if not t.done()]`. -/
def get_active_tasks (bt : BackgroundTasks) (session_id : String) : List TaskPhase :=
  (tasksOf bt session_id).filter (fun t => !t.done)

/-- The loop body of `cancel_session_tasks` over one session's task list:
for each task, if it is not done, cancel it and count it. -/
def cancelLoop : List TaskPhase → Nat × List TaskPhase
  | [] => (0, [])
  | t :: ts =>
      let (n, ts1) := cancelLoop ts
      if t.done then (n, t :: ts1) else (n + 1, t.cancel :: ts1)

/-- `cancel_session_tasks(session_id)` (`agent.py` lines 298-310): cancel every
not-yet-done task of the session (mutating the tasks in place, so the registry
entry now holds the updated tasks) and return how many were signalled. -/
def cancel_session_tasks (bt : BackgroundTasks) (session_id : String) :
    Nat × BackgroundTasks :=
  let (n, ts1) := cancelLoop (tasksOf bt session_id)
  (n, bt.map (fun e => if e.1 == session_id then (e.1, ts1) else e))

/-- The event loop processes all pending cancellations in the registry. -/
def settleAllCancellations (bt : BackgroundTasks) : BackgroundTasks :=
  bt.map (fun e => (e.1, e.2.map TaskPhase.settleCancellation))

/-! ## Streaming transport (`src/backend/src/api/routes.py`) -/

/-- How a coroutine awaits an asyncio task: directly (`await task`) or through
`asyncio.shield` (`await asyncio.shield(task)`). -/
inductive AwaitKind where
  | plainAwait
  | shieldedAwait
deriving Repr, DecidableEq

/-- asyncio semantics: cancelling a coroutine that is suspended on
`await task` propagates the cancellation to the awaited task, while
`asyncio.shield` absorbs it — the inner task is not cancelled. -/
def cancelPropagatesToTask : AwaitKind → Bool
  | .plainAwait => true
  | .shieldedAwait => false

/-- `stream_chat_response` (`routes.py` lines 38-69) awaits the background
task via `await asyncio.shield(task)` (line 43). -/
def stream_chat_response_awaitKind : AwaitKind := AwaitKind.shieldedAwait

/-- Effect on the awaited task's phase when the awaiting coroutine is
cancelled (the SSE generator is cancelled by FastAPI on client disconnect). -/
def taskAfterObserverCancel (k : AwaitKind) (t : TaskPhase) : TaskPhase :=
  if cancelPropagatesToTask k then t.cancel else t

/-! ## Content tool client (`src/backend/src/services/tool.py`) -/

/-- What the HTTP transport did for one attempt inside the `try` block of
`_make_tmdb_request`: delivered a response with a status code and JSON body,
raised an `httpx.RequestError` (network/timeout), or raised some other
exception (e.g. JSON decoding). -/
inductive TransportOutcome where
  | response (status : Nat) (body : Json)
  | requestError
  | otherFailure
deriving Repr

/-- The body of `_make_tmdb_request` (`tool.py` lines 63-85) for one attempt:
`resp.raise_for_status()` raises `httpx.HTTPStatusError` for any 4xx/5xx
status, which the handler converts to `NotFoundError` for 404 and `APIError`
otherwise; `httpx.RequestError` and any other exception are converted to
`APIError`.  No httpx exception escapes this body. -/
def make_tmdb_request_attempt (o : TransportOutcome) : Except PyError Json :=
  match o with
  | .response status body =>
      if 400 ≤ status then
        if status == 404 then .error .notFoundError
        else .error .apiError
      else .ok body
  | .requestError => .error .apiError
  | .otherFailure => .error .apiError

/-- tenacity's retry loop with `stop=stop_after_attempt(maxAttempts)` and
`retry=retry_if_exception_type(...)` (as the predicate `shouldRetry`):
attempt `k` runs; success returns; an exception for which `shouldRetry` is
false propagates immediately; a retryable exception retries until the attempt
budget is exhausted, after which tenacity raises `RetryError`.  Returns the
result together with the number of attempts actually made. -/
def tenacityLoop (shouldRetry : PyError → Bool) (attempt : Nat → Except PyError α) :
    Nat → Nat → Except PyError α × Nat
  | 0, k => (.error .retryError, k - 1)
  | fuel + 1, k =>
      match attempt k with
      | .ok a => (.ok a, k)
      | .error e =>
          if shouldRetry e then
            if fuel == 0 then (.error .retryError, k)
            else tenacityLoop shouldRetry attempt fuel (k + 1)
          else (.error e, k)

/-- `@retry(stop=stop_after_attempt(n), retry=retry_if_exception_type(...))`
applied to a function whose k-th call behaves as `attempt k`. -/
def tenacity_retry (maxAttempts : Nat) (shouldRetry : PyError → Bool)
    (attempt : Nat → Except PyError α) : Except PyError α × Nat :=
  tenacityLoop shouldRetry attempt maxAttempts 1

/-- `settings.HTTP_RETRIES` default (`config.py`). -/
def HTTP_RETRIES : Nat := 3

/-- `_make_tmdb_request(endpoint, params)` (`tool.py` lines 32-85): the body
above decorated with
`@retry(stop=stop_after_attempt(settings.HTTP_RETRIES), ...,
retry=retry_if_exception_type(httpx.HTTPError))`.  `transport k` is what the
HTTP transport does on the k-th attempt.  Returns the final result and the
number of attempts made. -/
def make_tmdb_request (transport : Nat → TransportOutcome) :
    Except PyError Json × Nat :=
  tenacity_retry HTTP_RETRIES isHttpxHTTPError
    (fun k => make_tmdb_request_attempt (transport k))

/-- Python truthiness of a decoded JSON value. -/
def pyTruthy : Json → Bool
  | .null => false
  | .bool b => b
  | .num n => n != 0
  | .str s => s != ""
  | .arr xs => !xs.isEmpty
  | .obj fields => !fields.isEmpty

/-- `item.get("media_type") == t` for a result item (non-dict items compare
unequal). -/
def mediaTypeIs (item : Json) (t : String) : Bool :=
  match item.get "media_type" with
  | some (.str s) => s == t
  | _ => false

/-- The truncated-overview field of `_format_item`:
`item.get("overview")[:200] + "..." if item.get("overview") else None`.
TMDB overviews are strings; an absent/empty overview yields `None`. -/
def formatOverview (item : Json) : Json :=
  match item.get "overview" with
  | some (.str o) => if o == "" then .null else .str (o.take 200 ++ "...")
  | _ => .null

/-- `item.get(key)` rendered into the formatted output dict (`None` when the
key is absent). -/
def fieldOrNull (item : Json) (key : String) : Json :=
  (item.get key).getD .null

/-- `_format_item(item, media_type)` (`tool.py` lines 88-124): normalize a
TMDB result item into the movie / tv / person shape; items matching no branch
are returned unchanged. -/
def format_item (item : Json) (media_type : String) : Json :=
  if media_type == "movie" || mediaTypeIs item "movie" then
    .obj [ ("type", .str "movie"),
           ("title", fieldOrNull item "title"),
           ("id", fieldOrNull item "id"),
           ("rating", fieldOrNull item "vote_average"),
           ("release_date", fieldOrNull item "release_date"),
           ("poster", fieldOrNull item "poster_path"),
           ("overview", formatOverview item),
           ("popularity", fieldOrNull item "popularity") ]
  else if media_type == "tv" || mediaTypeIs item "tv" then
    .obj [ ("type", .str "tv"),
           ("name", let n := fieldOrNull item "name"
                    if pyTruthy n then n else fieldOrNull item "title"),
           ("id", fieldOrNull item "id"),
           ("rating", fieldOrNull item "vote_average"),
           ("first_air_date", fieldOrNull item "first_air_date"),
           ("poster", fieldOrNull item "poster_path"),
           ("overview", formatOverview item),
           ("popularity", fieldOrNull item "popularity") ]
  else if media_type == "person" || mediaTypeIs item "person" then
    .obj [ ("type", .str "person"),
           ("name", fieldOrNull item "name"),
           ("id", fieldOrNull item "id"),
           ("profile_path", fieldOrNull item "profile_path"),
           ("known_for_department", fieldOrNull item "known_for_department"),
           ("popularity", fieldOrNull item "popularity") ]
  else item

/-- Result dict of `unified_search`. -/
structure SearchResult where
  query : String
  total_results : Nat
  movies : List Json
  tv_shows : List Json
  people : List Json
deriving Repr

/-- `unified_search(query, limit)` (`tool.py` lines 134-176), given the result
of its `_make_tmdb_request("/search/multi", ...)` call: on success organize
the raw results by media type (`[_format_item(r, t) for r in results if
r.get("media_type") == t][:limit]`); `except NotFoundError` returns the empty
result shape; any other exception is re-raised as `APIError`. -/
def unified_search (query : String) (limit : Nat) (response : Except PyError Json) :
    Except PyError SearchResult :=
  match response with
  | .ok data =>
      let results := data.getArr "results"
      let movies :=
        ((results.filter (fun r => mediaTypeIs r "movie")).map
          (fun r => format_item r "movie")).take limit
      let tv_shows :=
        ((results.filter (fun r => mediaTypeIs r "tv")).map
          (fun r => format_item r "tv")).take limit
      let people :=
        ((results.filter (fun r => mediaTypeIs r "person")).map
          (fun r => format_item r "person")).take limit
      .ok { query := query, total_results := results.length,
            movies := movies, tv_shows := tv_shows, people := people }
  | .error .notFoundError =>
      .ok { query := query, total_results := 0, movies := [], tv_shows := [], people := [] }
  | .error _ => .error .apiError

/-- Result dict of `find_by_id`. -/
structure FindResult where
  external_id : String
  external_source : String
  total_results : Nat
  movies : List Json
  tv_shows : List Json
  people : List Json
deriving Repr

/-- `find_by_id(external_id, external_source)` (`tool.py` lines 592-631),
given the result of its `_make_tmdb_request("/find/...", ...)` call: on
success format the `movie_results` / `tv_results` / `person_results` lists;
`except NotFoundError` returns the empty result shape; there is no other
handler, so any other exception propagates. -/
def find_by_id (external_id external_source : String) (response : Except PyError Json) :
    Except PyError FindResult :=
  match response with
  | .ok data =>
      let movies := (data.getArr "movie_results").map (fun m => format_item m "movie")
      let tv_shows := (data.getArr "tv_results").map (fun t => format_item t "tv")
      let people := (data.getArr "person_results").map (fun p => format_item p "person")
      .ok { external_id := external_id, external_source := external_source,
            total_results := movies.length + tv_shows.length + people.length,
            movies := movies, tv_shows := tv_shows, people := people }
  | .error .notFoundError =>
      .ok { external_id := external_id, external_source := external_source,
            total_results := 0, movies := [], tv_shows := [], people := [] }
  | .error e => .error e

/-! ## LLM gateway adapter (`src/backend/src/services/concentrate_llm.py`) -/

/-- Texts appended to `parts` from the `content` blocks of one assistant
message item: `for block in content: if isinstance(block, dict): txt =
block.get("text"); if isinstance(txt, str) and txt: parts.append(txt)`. -/
def collectBlockTexts : List Json → List String
  | [] => []
  | .obj bf :: rest =>
      (match jsonLookup bf "text" with
       | some (.str t) => if t == "" then collectBlockTexts rest else t :: collectBlockTexts rest
       | _ => collectBlockTexts rest)
  | _ :: rest => collectBlockTexts rest

/-- The `parts` list of `_extract_text`: texts of all content blocks of all
assistant `message` items of the `output` list. -/
def collectMessageParts : List Json → List String
  | [] => []
  | .obj f :: rest =>
      (match jsonLookup f "type", jsonLookup f "role" with
       | some (.str "message"), some (.str "assistant") =>
           (match jsonLookup f "content" with
            | some (.arr content) => collectBlockTexts content ++ collectMessageParts rest
            | _ => collectMessageParts rest)
       | _, _ => collectMessageParts rest)
  | _ :: rest => collectMessageParts rest

/-- Third step of `_extract_text`: `txt = data.get("text"); if isinstance(txt,
str) and txt.strip(): return txt`, else `str(data)`. -/
def extractTextStep3 (fields : List (String × Json)) (data : Json) : String :=
  match jsonLookup fields "text" with
  | some (.str t) => if t.trim == "" then pyStr data else t
  | _ => pyStr data

/-- Second step of `_extract_text`: collect the assistant message parts of the
`output` list; `if parts: return "".join(parts)`. -/
def extractTextStep2 (fields : List (String × Json)) (data : Json) : String :=
  match jsonLookup fields "output" with
  | some (.arr output) =>
      let parts := collectMessageParts output
      if parts.isEmpty then extractTextStep3 fields data else String.join parts
  | _ => extractTextStep3 fields data

/-- `_extract_text(data)` (`concentrate_llm.py` lines 170-204): try the
top-level `output_text` string, then the structured `output` list, then the
top-level `text` string, and finally fall back to `str(data)`. -/
def extract_text (data : Json) : String :=
  match data with
  | .obj fields =>
      (match jsonLookup fields "output_text" with
       | some (.str s) => if s.trim == "" then extractTextStep2 fields data else s
       | _ => extractTextStep2 fields data)
  | _ => pyStr data

/-- Loop state of `_aiter_stream_text`: the deltas yielded so far and the
`saw_any_text` / `saw_delta` flags. -/
structure StreamScan where
  yielded : List String
  sawAnyText : Bool
  sawDelta : Bool
deriving Repr, DecidableEq

/-- The event loop of `_aiter_stream_text` (`concentrate_llm.py` lines
360-385) over the parsed SSE events: yield non-empty `delta` strings of
`response.output_text.delta` events; yield the `text` of a
`response.output_text.done` event only if no delta was seen; yield the
`part.text` of a `response.content_part.added` event; `break` on any of the
five terminal event types. -/
def streamEventScan : List Json → StreamScan → StreamScan
  | [], st => st
  | evt :: rest, st =>
      match evt.get "type" with
      | some (.str etype) =>
          if etype == "response.output_text.delta" then
            match evt.get "delta" with
            | some (.str d) =>
                if d == "" then streamEventScan rest st
                else streamEventScan rest
                  { yielded := st.yielded ++ [d], sawAnyText := true, sawDelta := true }
            | _ => streamEventScan rest st
          else if etype == "response.output_text.done" then
            match evt.get "text" with
            | some (.str t) =>
                if t != "" && !st.sawDelta then
                  streamEventScan rest { st with yielded := st.yielded ++ [t], sawAnyText := true }
                else streamEventScan rest st
            | _ => streamEventScan rest st
          else if etype == "response.content_part.added" then
            match evt.get "part" with
            | some (.obj part) =>
                (match jsonLookup part "text" with
                 | some (.str t) =>
                     if t == "" then streamEventScan rest st
                     else streamEventScan rest
                       { st with yielded := st.yielded ++ [t], sawAnyText := true }
                 | _ => streamEventScan rest st)
            | _ => streamEventScan rest st
          else if etype == "response.completed" || etype == "response.failed" ||
                  etype == "response.canceled" || etype == "response.incomplete" ||
                  etype == "error" then
            st
          else streamEventScan rest st
      | _ => streamEventScan rest st

/-- `_aiter_stream_text(payload)` (`concentrate_llm.py` lines 352-393), given
the parsed SSE events of the streaming call and the JSON body that the
non-streaming fallback call would return: run the event loop; then, only `if
not saw_any_text`, make one non-streaming call and yield its extracted text
if non-empty.  Returns all yielded strings and the number of fallback calls
made. -/
def aiter_stream_text (events : List Json) (fallbackData : Json) :
    List String × Nat :=
  let st := streamEventScan events { yielded := [], sawAnyText := false, sawDelta := false }
  if st.sawAnyText then (st.yielded, 0)
  else
    let text := extract_text fallbackData
    if text == "" then (st.yielded, 1) else (st.yielded ++ [text], 1)

/-- `AwaitableAsyncStream` (`concentrate_llm.py` lines 51-90): the wrapper
over an async generator.  The generator's remaining items are `agen`;
`default_final` is modelled by its value. -/
structure AwaitableAsyncStream (T : Type) where
  agen : List T
  default_final : T
  last : Option T
  drained : Bool
deriving Repr, DecidableEq

/-- The constructor: a fresh wrapper over a generator (`_last = None`,
`_drained = False`). -/
def AwaitableAsyncStream.new (agen : List T) (default_final : T) :
    AwaitableAsyncStream T :=
  { agen := agen, default_final := default_final, last := none, drained := false }

/-- `__anext__`: pop the next generator item, remembering it in `_last`;
`StopAsyncIteration` (modelled as `none`) marks the stream drained. -/
def AwaitableAsyncStream.anext (s : AwaitableAsyncStream T) :
    Option T × AwaitableAsyncStream T :=
  match s.agen with
  | [] => (none, { s with drained := true })
  | x :: rest => (some x, { s with agen := rest, last := some x })

/-- `__await__` / `_drain`: if already drained return `_last` (or the default
final value); otherwise exhaust the remaining generator items, remember the
last one, and return it (falling back to `_last` from earlier partial
iteration, and to the default final value if the generator never produced
anything). -/
def AwaitableAsyncStream.awaitFinal (s : AwaitableAsyncStream T) :
    T × AwaitableAsyncStream T :=
  if s.drained then (s.last.getD s.default_final, s)
  else
    let last := match s.agen.getLast? with
                | some x => some x
                | none => s.last
    (last.getD s.default_final, { s with agen := [], drained := true, last := last })

/-- A full `async for` over the wrapper: call `__anext__` until it raises
`StopAsyncIteration`, collecting the yielded items. -/
def AwaitableAsyncStream.forLoop (s : AwaitableAsyncStream T) :
    List T × AwaitableAsyncStream T :=
  match h : s.anext with
  | (none, s1) => ([], s1)
  | (some x, s1) =>
      let (ys, s2) := s1.forLoop
      (x :: ys, s2)
termination_by s.agen.length
decreasing_by
  simp only [AwaitableAsyncStream.anext] at h
  cases hag : s.agen with
  | nil => rw [hag] at h; simp at h
  | cons a rest =>
      rw [hag] at h
      simp at h
      rw [← h.2]
      simp

/-! ## Helper lemmas -/

/-- The message-store row created for the user turn of `submit_agent_task`. -/
def userRow (importTime : Nat) (userMsgId session_id message : String) : ChatMessageRow :=
  { id := userMsgId, session_id := session_id, role := "user", content := message,
    created_at := chatMessageCreatedAtDefault importTime }

/-- The message-store row created for the assistant turn of `_run_agent_task`. -/
def assistantRow (importTime : Nat) (replyId session_id result : String) : ChatMessageRow :=
  { id := replyId, session_id := session_id, role := "assistant", content := result,
    created_at := chatMessageCreatedAtDefault importTime }

lemma save_messages_singleton (importTime : Nat) (i session_id : String) (m : PyMsg)
    (store : MessageStore) :
    save_messages importTime [i] session_id [m] store =
      store ++ [{ id := i, session_id := session_id, role := m.role, content := m.content,
                  created_at := chatMessageCreatedAtDefault importTime }] := rfl

lemma run_agent_task_preserves_rows (importTime : Nat) (replyId session_id : String)
    (outcome : AgentOutcome) (store : MessageStore) (r : ChatMessageRow)
    (hr : r ∈ store) : r ∈ (run_agent_task importTime replyId session_id outcome store).1 := by
  cases outcome with
  | success reply =>
      simp only [run_agent_task, save_messages_singleton]
      exact List.mem_append_left _ hr
  | cancelled => exact hr
  | failure => exact hr

lemma ensure_session_exists_ok (sessions : List String) (session_id : String) :
    ensure_session_exists sessions session_id =
      .ok (if sessions.contains session_id then sessions else sessions ++ [session_id]) := by
  unfold ensure_session_exists ensure_session_exists_race insert_session_row
  cases h : sessions.contains session_id <;> simp [h]

lemma submit_agent_task_eq (importTime : Nat) (userMsgId : String)
    (sessions : List String) (store : MessageStore) (session_id message : String) :
    submit_agent_task importTime userMsgId sessions store session_id message =
      .ok (if sessions.contains session_id then sessions else sessions ++ [session_id],
           store ++ [userRow importTime userMsgId session_id message],
           { session_id := session_id, token_limit := AGENT_MEMORY_TOKEN_LIMIT,
             messages := load_history store session_id }) := by
  unfold submit_agent_task build_memory
  rw [ensure_session_exists_ok]
  rfl

/-! ## Claim C1 -/

/-- C1: every `submit_agent_task(session_id, message)` durably appends the user
message to the message store before the detached agent task is launched (in
the effect trace, the save strictly precedes the task launch, and the store
handed to the launched run already contains the user row), so whatever the
outcome of the subsequent run — success, cancellation or failure — the user
message remains persisted. -/
theorem C1_user_message_persisted_before_launch
    (importTime : Nat) (userMsgId replyId : String) (sessions : List String)
    (store : MessageStore) (session_id message : String) (outcome : AgentOutcome) :
    submit_agent_task importTime userMsgId sessions store session_id message =
      .ok (if sessions.contains session_id then sessions else sessions ++ [session_id],
           store ++ [userRow importTime userMsgId session_id message],
           { session_id := session_id, token_limit := AGENT_MEMORY_TOKEN_LIMIT,
             messages := load_history store session_id })
    ∧ (∃ i j : Nat, i < j
        ∧ (submit_agent_task_effects session_id message)[i]? =
            some (.saveMessages session_id [{ role := "user", content := message }])
        ∧ (submit_agent_task_effects session_id message)[j]? =
            some (.launchTask session_id))
    ∧ userRow importTime userMsgId session_id message ∈
        (run_agent_task importTime replyId session_id outcome
          (store ++ [userRow importTime userMsgId session_id message])).1 := by
  refine ⟨submit_agent_task_eq .., ⟨2, 4, by omega, rfl, rfl⟩, ?_⟩
  exact run_agent_task_preserves_rows _ _ _ _ _ _
    (List.mem_append_right _ (List.mem_singleton.mpr rfl))

/-! ## Claim C2 -/

/-- Number of assistant rows a session has in the store. -/
def countAssistantRows (store : MessageStore) (session_id : String) : Nat :=
  (store.filter (fun r => r.session_id == session_id && r.role == "assistant")).length

/-- C2: a detached run (`_run_agent_task`) writes exactly one assistant message
on success (the store grows by exactly that one row, and the session's
assistant-message count rises by one), and writes nothing on cancellation or
on any other failure — the store is returned unchanged and the corresponding
error is re-raised. -/
theorem C2_exactly_one_assistant_message_on_success
    (importTime : Nat) (replyId session_id reply : String) (store : MessageStore) :
    (run_agent_task importTime replyId session_id (.success reply) store).1 =
        store ++ [assistantRow importTime replyId session_id reply.trim]
    ∧ countAssistantRows
        (run_agent_task importTime replyId session_id (.success reply) store).1 session_id =
        countAssistantRows store session_id + 1
    ∧ run_agent_task importTime replyId session_id .cancelled store =
        (store, .error .cancelledError)
    ∧ run_agent_task importTime replyId session_id .failure store =
        (store, .error .exception) := by
  refine ⟨rfl, ?_, rfl, rfl⟩
  simp [run_agent_task, save_messages_singleton, countAssistantRows, assistantRow,
    List.filter_append]

/-! ## Claim C3 -/

/-- C3: the SSE generator `stream_chat_response` awaits the detached task
through `asyncio.shield`, so cancelling the observing connection (client
disconnect cancels the generator) never propagates to the task: the task's
phase is unchanged by the observer's cancellation, the task keeps running,
and on completion its result still reaches the message store as the one
assistant row. -/
theorem C3_client_disconnect_does_not_cancel_task
    (t : TaskPhase) (importTime : Nat) (replyId session_id reply : String)
    (store : MessageStore) :
    cancelPropagatesToTask stream_chat_response_awaitKind = false
    ∧ taskAfterObserverCancel stream_chat_response_awaitKind t = t
    ∧ (run_agent_task importTime replyId session_id (.success reply) store).1 =
        store ++ [assistantRow importTime replyId session_id reply.trim] := by
  exact ⟨rfl, rfl, rfl⟩

/-! ## Claim C4 -/

/-- C4 (code bug): the `created_at` column default of `ChatMessage` is
`datetime.datetime.now(...)` *evaluated once at module import*, so every row
ever inserted — here two messages saved by two separate `_save_messages`
calls, arbitrarily far apart in time — carries the identical constant
timestamp.  The creation timestamps therefore carry no per-message ordering
information, contradicting the claim that they increase monotonically and are
the sole, stably sortable conversation order. -/
theorem C4_created_at_default_constant_at_import
    (importTime : Nat) (id1 id2 session_id : String) (m1 m2 : PyMsg)
    (store : MessageStore) :
    ((save_messages importTime [id2] session_id [m2]
        (save_messages importTime [id1] session_id [m1] store)).map
      (fun r => r.created_at)) =
      (store.map (fun r => r.created_at)) ++
        [chatMessageCreatedAtDefault importTime, chatMessageCreatedAtDefault importTime] := by
  simp [save_messages_singleton]

/-! ## Claim C5 -/

lemma cancelLoop_count (ts : List TaskPhase) :
    (cancelLoop ts).1 = (ts.filter (fun t => !t.done)).length := by
  induction ts with
  | nil => rfl
  | cons t ts ih =>
      simp only [cancelLoop, List.filter_cons]
      cases h : t.done <;> simp [h, ih]

lemma cancelLoop_tasks (ts : List TaskPhase) :
    (cancelLoop ts).2 = ts.map TaskPhase.cancel := by
  induction ts with
  | nil => rfl
  | cons t ts ih =>
      simp only [cancelLoop, List.map_cons]
      cases h : t.done with
      | false => simp [h, ih]
      | true => simp [h, ih, TaskPhase.cancel]

lemma settle_after_cancel_done (t : TaskPhase) :
    (TaskPhase.settleCancellation (TaskPhase.cancel t)).done = true := by
  cases t <;> rfl

lemma lookup_map_values {β γ : Type} (f : β → γ) (l : List (String × β)) (k : String) :
    (l.map (fun e => (e.1, f e.2))).lookup k = (l.lookup k).map f := by
  induction l with
  | nil => rfl
  | cons e l ih =>
      simp only [List.map_cons, List.lookup]
      cases h : k == e.1 <;> simp [h, ih]

lemma lookup_update_self {β : Type} (l : List (String × β)) (k : String) (v : β) :
    (l.map (fun e => if e.1 == k then (e.1, v) else e)).lookup k =
      (l.lookup k).map (fun _ => v) := by
  induction l with
  | nil => rfl
  | cons e l ih =>
      simp only [List.map_cons]
      cases h : e.1 == k with
      | true =>
          have hk : (k == e.1) = true := by
            simp only [beq_iff_eq] at h ⊢; exact h.symm
          simp [List.lookup, h, hk]
      | false =>
          have hk : (k == e.1) = false := by
            simp only [beq_eq_false_iff_ne, ne_eq] at h ⊢
            exact fun hkk => h hkk.symm
          simp only [h, Bool.false_eq_true, if_false, List.lookup, hk, ih]

/-- C5-counterexample: the claim fails at a session with one running task.
`cancel_session_tasks` signals the task and returns 1, but `task.cancel()`
only *requests* cancellation; immediately afterwards the task is not yet done,
so `get_active_tasks` still returns that task — not the empty list the claim
promises. -/
theorem C5_counterexample_active_right_after_cancel :
    cancel_session_tasks [("s", [TaskPhase.running])] "s" =
      (1, [("s", [TaskPhase.cancelRequested])])
    ∧ get_active_tasks
        (cancel_session_tasks [("s", [TaskPhase.running])] "s").2 "s" =
        [TaskPhase.cancelRequested]
    ∧ [TaskPhase.cancelRequested] ≠ ([] : List TaskPhase) := by
  refine ⟨rfl, rfl, by decide⟩

/-- C5 (amended): for every session, `cancel_session_tasks` returns exactly
the number of its not-yet-completed tasks (the length of `get_active_tasks`),
and once the event loop has processed the requested cancellations (each
signalled task finishes in the cancelled state, since `_run_agent_task`
re-raises `CancelledError`), `get_active_tasks` for that session is empty. -/
theorem C5_cancel_all_count_then_quiescence
    (bt : BackgroundTasks) (session_id : String) :
    (cancel_session_tasks bt session_id).1 =
      (get_active_tasks bt session_id).length
    ∧ get_active_tasks
        (settleAllCancellations (cancel_session_tasks bt session_id).2) session_id = [] := by
  have hsettle : ∀ ts : List TaskPhase,
      (List.map TaskPhase.settleCancellation (List.map TaskPhase.cancel ts)).filter
        (fun t => !t.done) = [] := by
    intro ts
    induction ts with
    | nil => rfl
    | cons u ts ih =>
        simp only [List.map_cons, List.filter_cons, settle_after_cancel_done,
          Bool.not_true, Bool.false_eq_true, if_false]
        exact ih
  constructor
  · simp [cancel_session_tasks, get_active_tasks, cancelLoop_count]
  · simp only [cancel_session_tasks, settleAllCancellations, get_active_tasks, tasksOf,
      cancelLoop_tasks]
    rw [lookup_map_values, lookup_update_self]
    cases h : bt.lookup session_id with
    | none => rfl
    | some ts => simpa using hsettle ts

/-! ## Claim C6 -/

lemma make_tmdb_request_attempt_no_httpx (o : TransportOutcome) (e : PyError)
    (h : make_tmdb_request_attempt o = .error e) : isHttpxHTTPError e = false := by
  cases o with
  | response status body =>
      simp only [make_tmdb_request_attempt] at h
      split_ifs at h with h4 h404
      · injection h with h1; subst h1; rfl
      · injection h with h1; subst h1; rfl
  | requestError =>
      simp only [make_tmdb_request_attempt, Except.error.injEq] at h
      subst h; rfl
  | otherFailure =>
      simp only [make_tmdb_request_attempt, Except.error.injEq] at h
      subst h; rfl

/-- C6 (code bug): the body of `_make_tmdb_request` converts every httpx
exception into a `ToolError` subclass (`NotFoundError` / `APIError`) before it
can escape, while its tenacity decorator retries only on `httpx.HTTPError`.
Consequently the retry machinery can never fire: every call makes exactly one
attempt regardless of the transport's behaviour — in particular a transient
transport error surfaces as `APIError` after a single attempt with no backoff,
although `settings.HTTP_RETRIES` budgets 3 attempts.  (Only the 404 half of
the claim holds: `NotFoundError` is raised and not retried.) -/
theorem C6_no_retry_ever_performed (transport : Nat → TransportOutcome) :
    (make_tmdb_request transport).2 = 1
    ∧ make_tmdb_request (fun _ => .requestError) = (.error .apiError, 1)
    ∧ make_tmdb_request (fun _ => .response 404 .null) = (.error .notFoundError, 1)
    ∧ make_tmdb_request (fun _ => .response 500 .null) = (.error .apiError, 1)
    ∧ HTTP_RETRIES = 3 := by
  refine ⟨?_, rfl, rfl, rfl, rfl⟩
  simp only [make_tmdb_request, tenacity_retry, HTTP_RETRIES, tenacityLoop]
  cases h : make_tmdb_request_attempt (transport 1) with
  | ok a => rfl
  | error e => simp [make_tmdb_request_attempt_no_httpx _ _ h]

/-! ## Claim C7 -/

/-- C7-counterexample: the "tolerate a uniqueness-constraint violation as a
benign no-op" part of the claim fails.  A caller whose existence check ran
against an empty snapshot, while a concurrent caller has meanwhile inserted
the session row, hits the primary-key constraint at commit time and —
`_ensure_session_exists` having no exception handler — raises `IntegrityError`
instead of succeeding as a no-op. -/
theorem C7_counterexample_integrity_error_not_tolerated :
    ensure_session_exists_race [] ["s1"] "s1" = .error .integrityError := rfl

/-- C7 (amended): hydrating memory for a session yields the role/content
projection of exactly the messages persisted for that session (same length),
read back in ascending `created_at` order; the only side effect is the
create-session-if-absent step, which for an unraced caller never fails, never
duplicates the session row, and is idempotent.  (Under concurrent callers the
primary-key constraint still prevents a duplicate row, but a lost race raises
`IntegrityError` rather than being tolerated as a no-op.) -/
theorem C7_memory_hydration_contract
    (store : MessageStore) (sessions : List String) (session_id : String) :
    build_memory store sessions session_id =
      .ok (if sessions.contains session_id then sessions else sessions ++ [session_id],
           { session_id := session_id, token_limit := AGENT_MEMORY_TOKEN_LIMIT,
             messages := load_history store session_id })
    ∧ (load_history store session_id).length =
        (store.filter (fun r => r.session_id == session_id)).length
    ∧ List.Pairwise (fun a b => a.created_at ≤ b.created_at)
        (orderByCreatedAtAsc (store.filter (fun r => r.session_id == session_id)))
    ∧ ensure_session_exists
        (if sessions.contains session_id then sessions else sessions ++ [session_id])
        session_id =
        .ok (if sessions.contains session_id then sessions else sessions ++ [session_id]) := by
  refine ⟨?_, ?_, ?_, ?_⟩
  · unfold build_memory
    rw [ensure_session_exists_ok]
  · simp [load_history, orderByCreatedAtAsc, List.length_mergeSort]
  · have := @List.sorted_mergeSort ChatMessageRow
      (fun a b : ChatMessageRow => decide (a.created_at ≤ b.created_at))
      (fun a b c hab hbc => by
        simp only [decide_eq_true_eq] at hab hbc ⊢; omega)
      (fun a b => by
        simp only [Bool.or_eq_true, decide_eq_true_eq]; omega)
      (store.filter (fun r => r.session_id == session_id))
    exact this.imp (fun h => by simpa using h)
  · rw [ensure_session_exists_ok]
    cases h : sessions.contains session_id with
    | true =>
        have hmem : session_id ∈ sessions := by simpa using h
        simp [h, hmem]
    | false => simp [h]

/-! ## Claim C10 -/

/-- C10: when the upstream reports not-found, the public tool operations
`unified_search` and `find_by_id` do not raise: each absorbs the
`NotFoundError` and returns the well-formed empty mapping with
`total_results = 0` and empty `movies`, `tv_shows` and `people` lists. -/
theorem C10_notfound_absorbed_by_search_and_find
    (query : String) (limit : Nat) (external_id external_source : String) :
    unified_search query limit (.error .notFoundError) =
      .ok { query := query, total_results := 0, movies := [], tv_shows := [], people := [] }
    ∧ find_by_id external_id external_source (.error .notFoundError) =
      .ok { external_id := external_id, external_source := external_source,
            total_results := 0, movies := [], tv_shows := [], people := [] } := by
  exact ⟨rfl, rfl⟩

/-! ## Claim C8 -/

lemma streamEventScan_sawAnyText_mono (events : List Json) (st : StreamScan)
    (h : st.sawAnyText = true) : (streamEventScan events st).sawAnyText = true := by
  induction events generalizing st with
  | nil => simpa [streamEventScan] using h
  | cons evt rest ih =>
      simp only [streamEventScan]
      repeat' split
      all_goals first
        | exact h
        | exact ih _ h
        | exact ih _ rfl

lemma streamEventScan_fix_or_text (events : List Json) (st : StreamScan) :
    streamEventScan events st = st ∨ (streamEventScan events st).sawAnyText = true := by
  induction events generalizing st with
  | nil => left; rfl
  | cons evt rest ih =>
      simp only [streamEventScan]
      repeat' split
      all_goals first
        | exact ih st
        | (left; rfl)
        | (right; exact streamEventScan_sawAnyText_mono _ _ rfl)

/-- C8-counterexample: the claim fails on a stream that carries its text only
in a `response.output_text.done` event.  No text *delta* is ever produced
(`saw_delta` stays false), yet the done-event's text sets `saw_any_text`, so
zero fallback calls are made — not the one call the claim requires whenever no
delta was produced. -/
theorem C8_counterexample_done_text_suppresses_fallback :
    (streamEventScan
        [Json.obj [("type", Json.str "response.output_text.done"), ("text", Json.str "hi")],
         Json.obj [("type", Json.str "response.completed")]]
        { yielded := [], sawAnyText := false, sawDelta := false }).sawDelta = false
    ∧ aiter_stream_text
        [Json.obj [("type", Json.str "response.output_text.done"), ("text", Json.str "hi")],
         Json.obj [("type", Json.str "response.completed")]]
        (Json.obj []) = (["hi"], 0) := by
  exact ⟨rfl, rfl⟩

/-- C8 (amended): the non-streaming fallback of `_aiter_stream_text` is
governed by `saw_any_text`, not by `saw_delta`: if the event stream terminates
without having produced *any* text (no delta, no done-event text, no
content-part text), exactly one fallback call is issued and its extracted text
is yielded once when non-empty; if the stream produced any text at all, no
fallback call is made and exactly the streamed texts are yielded. -/
theorem C8_fallback_iff_no_text_produced (events : List Json) (fallbackData : Json) :
    ((streamEventScan events
        { yielded := [], sawAnyText := false, sawDelta := false }).sawAnyText = false →
      aiter_stream_text events fallbackData =
        (if extract_text fallbackData == "" then [] else [extract_text fallbackData], 1))
    ∧ ((streamEventScan events
        { yielded := [], sawAnyText := false, sawDelta := false }).sawAnyText = true →
      aiter_stream_text events fallbackData =
        ((streamEventScan events
            { yielded := [], sawAnyText := false, sawDelta := false }).yielded, 0)) := by
  constructor
  · intro h
    have hfix : streamEventScan events
        { yielded := [], sawAnyText := false, sawDelta := false } =
        { yielded := [], sawAnyText := false, sawDelta := false } := by
      rcases streamEventScan_fix_or_text events
          { yielded := [], sawAnyText := false, sawDelta := false } with h1 | h1
      · exact h1
      · rw [h] at h1; exact absurd h1 (by decide)
    simp only [aiter_stream_text, hfix]
    cases hte : extract_text fallbackData == "" <;> simp [hte]
  · intro h
    simp [aiter_stream_text, h]

/-- C8-witness: instantiating the amended theorem at the empty event stream
and the empty-object fallback body. -/
theorem C8_fallback_iff_no_text_produced_witness :
    aiter_stream_text [] (Json.obj []) = (["\x7b\x7d"], 1) := by
  have h := (C8_fallback_iff_no_text_produced [] (Json.obj [])).1 rfl
  exact h.trans (by rfl)

/-! ## Claim C9 -/

lemma forLoop_spec (agen : List T) (dflt : T) (last : Option T) (d : Bool) :
    AwaitableAsyncStream.forLoop ⟨agen, dflt, last, d⟩ =
      (agen, ⟨[], dflt,
        (match agen.getLast? with | some x => some x | none => last), true⟩) := by
  induction agen generalizing last with
  | nil =>
      rw [AwaitableAsyncStream.forLoop]
      rfl
  | cons a rest ih =>
      rw [AwaitableAsyncStream.forLoop]
      simp only [AwaitableAsyncStream.anext]
      simp only [ih (some a)]
      cases hr : rest with
      | nil => rfl
      | cons b l =>
          simp only [List.getLast?_cons_cons]
          cases hgl : (b :: l).getLast? with
          | none => simp at hgl
          | some x => rfl

/-- C9: an `AwaitableAsyncStream` serves iteration and awaiting from the one
underlying generator it wraps, never re-issuing the request: a full
`async for` yields exactly the generator's items; awaiting after that full
iteration returns the last item yielded (the default final value if there was
none); awaiting without iterating drains the same generator and returns its
last item (or the default final value if it produced none); and awaiting again
afterwards returns the same final value. -/
theorem C9_await_and_iteration_share_generator (T : Type) (items : List T) (dflt : T) :
    ((AwaitableAsyncStream.new items dflt).forLoop).1 = items
    ∧ (((AwaitableAsyncStream.new items dflt).forLoop).2.awaitFinal).1 =
        items.getLast?.getD dflt
    ∧ ((AwaitableAsyncStream.new items dflt).awaitFinal).1 = items.getLast?.getD dflt
    ∧ ((((AwaitableAsyncStream.new items dflt).awaitFinal).2).awaitFinal).1 =
        items.getLast?.getD dflt := by
  have hnew : AwaitableAsyncStream.new items dflt =
      ⟨items, dflt, none, false⟩ := rfl
  refine ⟨?_, ?_, ?_, ?_⟩ <;>
    rw [hnew] <;>
    simp only [forLoop_spec, AwaitableAsyncStream.awaitFinal] <;>
    cases hgl : items.getLast? <;>
    simp [hgl]

end MovieAnalyst
